import Mathlib

set_option autoImplicit false

namespace WaterQuality

/-!
Shallow embedding of the Flames.Blue water-quality backend
(`schemas.py` and `main.py`) together with the store adapter contract.

Numeric sample fields (`float` in the source) are modelled as rationals;
the claims under study only involve exact comparisons and averages of
exact values. Python dictionaries appear as association lists in key
insertion order, matching dict semantics.
-/

/-! ### Timestamps

`datetime` values (schemas.py `collected_at`); `isoformat` renders the
ISO-8601 form the way Python's `datetime.isoformat` does for whole-second
naive values. -/

structure DT where
  year : Nat
  month : Nat
  day : Nat
  hour : Nat
  minute : Nat
  second : Nat
deriving DecidableEq

def pad2 (n : Nat) : String :=
  if n < 10 then "0" ++ toString n else toString n

def pad4 (n : Nat) : String :=
  if n < 10 then "000" ++ toString n
  else if n < 100 then "00" ++ toString n
  else if n < 1000 then "0" ++ toString n
  else toString n

def isoformat (d : DT) : String :=
  pad4 d.year ++ "-" ++ pad2 d.month ++ "-" ++ pad2 d.day ++ "T" ++
    pad2 d.hour ++ ":" ++ pad2 d.minute ++ ":" ++ pad2 d.second

/-! ### schemas.py: the pydantic models -/

structure Location where
  lat : ℚ
  lon : ℚ
deriving DecidableEq

structure SampleFile where
  filename : String
  url : Option String
  content_type : Option String
  size : Option Int
deriving DecidableEq

structure WaterSample where
  scenario : String
  site_name : Option String
  collected_at : DT
  location : Location
  ph : Option ℚ
  dissolved_oxygen_mg_l : Option ℚ
  turbidity_ntu : Option ℚ
  metals_mg_l : Option (List (String × ℚ))
  notes : Option String
  files : Option (List SampleFile)
deriving DecidableEq

structure ScenarioSummary where
  scenario : String
  count : Nat
  avg_ph : Option ℚ
  avg_do : Option ℚ
  avg_turbidity : Option ℚ
deriving DecidableEq

/-! ### Candidate records and pydantic validation

A candidate record is the loosely structured request body before
validation: every field may be absent. Pydantic validates each declared
field independently and reports the full list of per-field errors
(`loc` plus error type); we model a `loc` as a `FieldId` and the rule as
`missing` (a required field is absent), `ge` (a `Field(ge=...)` bound
fails) or `le` (a `Field(le=...)` bound fails). -/

structure RawFile where
  filename : Option String
  url : Option String
  content_type : Option String
  size : Option Int
deriving DecidableEq

structure Candidate where
  scenario : Option String
  site_name : Option String
  collected_at : Option DT
  location : Option (Option ℚ × Option ℚ)
  ph : Option ℚ
  dissolved_oxygen_mg_l : Option ℚ
  turbidity_ntu : Option ℚ
  metals_mg_l : Option (List (String × ℚ))
  notes : Option String
  files : Option (List RawFile)
deriving DecidableEq

inductive FieldId where
  | scenario
  | collected_at
  | location
  | lat
  | lon
  | ph
  | dissolved_oxygen_mg_l
  | turbidity_ntu
  | filesFilename (i : Nat)
deriving DecidableEq

inductive Rule where
  | missing
  | ge
  | le
deriving DecidableEq

abbrev Violation := FieldId × Rule

def scenarioErrs (c : Candidate) : List Violation :=
  match c.scenario with
  | none => [(FieldId.scenario, Rule.missing)]
  | some _ => []

def collectedAtErrs (c : Candidate) : List Violation :=
  match c.collected_at with
  | none => [(FieldId.collected_at, Rule.missing)]
  | some _ => []

def locationErrs (c : Candidate) : List Violation :=
  match c.location with
  | none => [(FieldId.location, Rule.missing)]
  | some lv =>
      (match lv.1 with
       | none => [(FieldId.lat, Rule.missing)]
       | some q => (if q < -90 then [(FieldId.lat, Rule.ge)] else []) ++
                   (if 90 < q then [(FieldId.lat, Rule.le)] else [])) ++
      (match lv.2 with
       | none => [(FieldId.lon, Rule.missing)]
       | some q => (if q < -180 then [(FieldId.lon, Rule.ge)] else []) ++
                   (if 180 < q then [(FieldId.lon, Rule.le)] else []))

def phErrs (c : Candidate) : List Violation :=
  match c.ph with
  | none => []
  | some q => (if q < 0 then [(FieldId.ph, Rule.ge)] else []) ++
              (if 14 < q then [(FieldId.ph, Rule.le)] else [])

def doErrs (c : Candidate) : List Violation :=
  match c.dissolved_oxygen_mg_l with
  | none => []
  | some q => if q < 0 then [(FieldId.dissolved_oxygen_mg_l, Rule.ge)] else []

def turbidityErrs (c : Candidate) : List Violation :=
  match c.turbidity_ntu with
  | none => []
  | some q => if q < 0 then [(FieldId.turbidity_ntu, Rule.ge)] else []

def filesErrs (c : Candidate) : List Violation :=
  match c.files with
  | none => []
  | some fs =>
      fs.enum.filterMap fun p =>
        match p.2.filename with
        | none => some (FieldId.filesFilename p.1, Rule.missing)
        | some _ => none

def violations (c : Candidate) : List Violation :=
  scenarioErrs c ++ collectedAtErrs c ++ locationErrs c ++ phErrs c ++
    doErrs c ++ turbidityErrs c ++ filesErrs c

def toFile (f : RawFile) : Option SampleFile :=
  match f.filename with
  | none => none
  | some n => some ⟨n, f.url, f.content_type, f.size⟩

def toSample (c : Candidate) : Option WaterSample := do
  let sc ← c.scenario
  let ca ← c.collected_at
  let lv ← c.location
  let la ← lv.1
  let lo ← lv.2
  let fs ← match c.files with
           | none => some none
           | some l => Option.map some (l.mapM toFile)
  pure { scenario := sc, site_name := c.site_name, collected_at := ca,
         location := ⟨la, lo⟩, ph := c.ph,
         dissolved_oxygen_mg_l := c.dissolved_oxygen_mg_l,
         turbidity_ntu := c.turbidity_ntu, metals_mg_l := c.metals_mg_l,
         notes := c.notes, files := fs }

/-- Pydantic parsing of a `WaterSample` request body: succeeds exactly when
no declared-field constraint is violated, and on failure reports the full
list of per-field violations. -/
def validate (c : Candidate) : Except (List Violation) WaterSample :=
  match toSample c with
  | some ws => if violations c = [] then Except.ok ws else Except.error (violations c)
  | none => Except.error (violations c)

/-! ### Ingestion (main.py `create_sample` plus the adapter insert) -/

/-- Modelled from the spec: `create_document` lives in `database.py`, which is
not among the provided sources; §4.2 specifies `insert(collection_name,
record) -> generated_id` appending one record and returning a fresh
store-generated identifier in string form. The store is the ordered list of
persisted records and the generated id is the decimal rendering of the new
record's index. -/
def create_document (store : List WaterSample) (ws : WaterSample) :
    List WaterSample × String :=
  (store ++ [ws], toString store.length)

structure IngestResponse where
  id : String
  status : String
deriving DecidableEq

/-- The Ingestion operation: the transport layer validates the body into a
`WaterSample` (signalling `ValidationError` on failure, before the handler
body runs), then `create_sample` inserts it and answers
`{id, status: "created"}`. Returns the store after the call together with
the outcome. -/
def create_sample (store : List WaterSample) (c : Candidate) :
    List WaterSample × Except (List Violation) IngestResponse :=
  match validate c with
  | Except.error errs => (store, Except.error errs)
  | Except.ok ws =>
      let r := create_document store ws
      (r.1, Except.ok ⟨r.2, "created"⟩)

/-! ### Stored documents: the untyped view of the query path

`list_samples` and `cluster_trigger` handle raw store documents (Python
dicts); a document is an association list in key insertion order and a
value is any of the JSON/BSON shapes the code inspects. -/

inductive Value where
  | null
  | b (v : Bool)
  | num (q : ℚ)
  | str (s : String)
  | datetime (d : DT)
  | objectId (s : String)
  | dict (kvs : List (String × Value))
  | list (vs : List Value)

/-- Boolean equality of values (the equality Mongo's filter applies). -/
def beqValue : Value → Value → Bool
  | Value.null, Value.null => true
  | Value.b x, Value.b y => x == y
  | Value.num x, Value.num y => x == y
  | Value.str x, Value.str y => x == y
  | Value.datetime x, Value.datetime y => x == y
  | Value.objectId x, Value.objectId y => x == y
  | Value.dict [], Value.dict [] => true
  | Value.dict ((k, v) :: ps), Value.dict ((k2, v2) :: qs) =>
      k == k2 && beqValue v v2 && beqValue (Value.dict ps) (Value.dict qs)
  | Value.list [], Value.list [] => true
  | Value.list (x :: xs), Value.list (y :: ys) =>
      beqValue x y && beqValue (Value.list xs) (Value.list ys)
  | _, _ => false

theorem beqValue_eq : ∀ a b, beqValue a b = true → a = b := by
  intro a b h
  induction a, b using beqValue.induct <;> simp_all [beqValue]

theorem beqValue_refl_aux : ∀ (n : Nat) (a : Value), sizeOf a ≤ n →
    beqValue a a = true := by
  intro n
  induction n with
  | zero => intro a h; cases a <;> simp_all
  | succ n ih =>
    intro a h
    cases a with
    | dict kvs =>
      induction kvs with
      | nil => simp [beqValue]
      | cons p ps ihp =>
        obtain ⟨k, v⟩ := p
        simp only [beqValue, Bool.and_eq_true, beq_self_eq_true, true_and]
        constructor
        · exact ih v (by simp_all; omega)
        · exact ihp (by simp_all; omega)
    | list vs =>
      induction vs with
      | nil => simp [beqValue]
      | cons x xs ihx =>
        simp only [beqValue, Bool.and_eq_true]
        constructor
        · exact ih x (by simp_all; omega)
        · exact ihx (by simp_all; omega)
    | null => simp [beqValue]
    | b x => simp [beqValue]
    | num x => simp [beqValue]
    | str x => simp [beqValue]
    | datetime x => simp [beqValue]
    | objectId x => simp [beqValue]

theorem beqValue_refl (a : Value) : beqValue a a = true :=
  beqValue_refl_aux (sizeOf a) a le_rfl

instance : BEq Value := ⟨beqValue⟩

instance : LawfulBEq Value where
  eq_of_beq := beqValue_eq _ _
  rfl := beqValue_refl _

abbrev Doc := List (String × Value)

/-- Python truthiness of a value, as used by `if doc.get("_id")` and
`if scenario:`. -/
def truthy : Value → Bool
  | Value.null => false
  | Value.b v => v
  | Value.num q => !(q == 0)
  | Value.str s => !(s == "")
  | Value.datetime _ => true
  | Value.objectId _ => true
  | Value.dict kvs => !kvs.isEmpty
  | Value.list vs => !vs.isEmpty

/-- Python `str()` on the scalar values that occur as store identifiers;
collection values never reach `str` in the code paths under study. -/
def pyStr : Value → String
  | Value.null => "None"
  | Value.b true => "True"
  | Value.b false => "False"
  | Value.num q => toString q
  | Value.str s => s
  | Value.objectId s => s
  | Value.datetime d => isoformat d
  | Value.dict _ => "<dict>"
  | Value.list _ => "<list>"

def assocGet (doc : Doc) (k : String) : Option Value :=
  match doc with
  | [] => none
  | p :: rest => if p.1 = k then some p.2 else assocGet rest k

/-- `doc.pop(k)`: drop the entry for `k` (a dict holds each key once),
keeping the order of the others. -/
def assocPop (doc : Doc) (k : String) : Doc :=
  doc.filter fun p => !(p.1 == k)

/-- `doc[k] = v`: overwrite in place when `k` is present, else append. -/
def assocSet (doc : Doc) (k : String) (v : Value) : Doc :=
  match doc with
  | [] => [(k, v)]
  | p :: rest => if p.1 = k then (k, v) :: rest else p :: assocSet rest k v

/-! ### main.py `list_samples.clean` -/

/-- One pass of the inner loop of `clean` over a dict-valued field:
datetimes one level inside a dict are rendered ISO-8601. -/
def isoDict (kvs : List (String × Value)) : List (String × Value) :=
  kvs.map fun p =>
    match p.2 with
    | Value.datetime d => (p.1, Value.str (isoformat d))
    | v => (p.1, v)

/-- The body of `clean`'s `for k, v in list(doc.items())` loop for one
value: a top-level datetime becomes its ISO string, a dict has its
datetime entries converted, everything else (lists included) is left
as is. -/
def convertTop : Value → Value
  | Value.datetime d => Value.str (isoformat d)
  | Value.dict kvs => Value.dict (isoDict kvs)
  | v => v

/-- main.py `clean`: rename a truthy `_id` to the public string `id`
(else set `id` to `None`), then convert datetimes at the top level and
one level inside dict values. -/
def clean (doc : Doc) : Doc :=
  let idv := (assocGet doc "_id").getD Value.null
  let doc1 :=
    if truthy idv
    then assocSet (assocPop doc "_id") "id" (Value.str (pyStr idv))
    else assocSet doc "id" Value.null
  doc1.map fun p => (p.1, convertTop p.2)

/-! ### The adapter's query side and the two read endpoints -/

/-- Mongo-style equality filter: the document matches when every filter
entry equals the document's value at that key. -/
def matchesFilter (flt : Doc) (doc : Doc) : Bool :=
  flt.all fun p => assocGet doc p.1 == some p.2

/-- Modelled from the spec: `get_documents` lives in `database.py`, which is
not among the provided sources; §4.2 specifies `query(collection_name,
filter, limit) -> ordered_sequence_of_records` in the store's natural
insertion order, with equality filters and an optional limit (no limit
means unlimited). -/
def get_documents (store : List Doc) (flt : Doc) (limit : Option Int) :
    List Doc :=
  let ms := store.filter (matchesFilter flt)
  match limit with
  | none => ms
  | some n => ms.take n.toNat

/-- `if scenario:` in `list_samples` and `cluster_trigger`: the filter
entry is built only when the parameter is a truthy string, so `None` and
`""` both leave the filter empty. -/
def scenarioFilter (scenario : Option String) : Doc :=
  match scenario with
  | none => []
  | some s => if s = "" then [] else [("scenario", Value.str s)]

/-- The endpoint signature `limit: Optional[int] = 200`: an omitted
`limit` query parameter binds 200. -/
def defaultLimit : Option Int := some 200

/-- main.py `list_samples`: filter by truthy scenario, query with the
given limit, normalize each document with `clean`, return the items and
their count. -/
def list_samples (store : List Doc) (scenario : Option String)
    (limit : Option Int) : List Doc × Nat :=
  let docs := get_documents store (scenarioFilter scenario) limit
  let cleaned := docs.map clean
  (cleaned, cleaned.length)

structure ClusterResult where
  scenario : Option String
  k : Int
  labels : List (String × Int)
deriving DecidableEq

/-- main.py `cluster_trigger`: retrieve all matching documents with no
limit, key each by `str(d["_id"])`, and assign round-robin labels
`i % max(1, k)` in retrieval order; the response carries the request's
`scenario` and `k` unchanged. (The feature payload the code also builds
is dead in the stubbed response.) -/
def cluster_trigger (store : List Doc) (scenario : Option String)
    (k : Int) : ClusterResult :=
  let docs := get_documents store (scenarioFilter scenario) none
  let ids := docs.map fun d => pyStr ((assocGet d "_id").getD Value.null)
  let labels := ids.enum.map fun p => (p.2, (p.1 : Int) % max 1 k)
  { scenario := scenario, k := k, labels := labels }

/-! ### main.py `get_summaries` -/

/-- Mongo's `$avg` accumulator as the pipeline in `get_summaries` uses
it: the arithmetic mean of the non-null values, and null when the group
has no non-null value for the field. -/
def mongoAvg (vals : List (Option ℚ)) : Option ℚ :=
  let nums := vals.filterMap id
  if nums.isEmpty then none else some (nums.sum / nums.length)

/-- main.py `get_summaries`: the `$group`-by-scenario pipeline over the
collection of persisted (hence validated) samples, producing per group
the record count and the `$avg` of `ph`, `dissolved_oxygen_mg_l` and
`turbidity_ntu`. Group keys are the distinct scenario values (the store
guarantees no particular group order; the model picks a deterministic
one, as §4.5 requires). -/
def get_summaries (store : List WaterSample) : List ScenarioSummary :=
  ((store.map WaterSample.scenario).dedup).map fun s =>
    let g := store.filter fun ws => ws.scenario == s
    { scenario := s, count := g.length,
      avg_ph := mongoAvg (g.map WaterSample.ph),
      avg_do := mongoAvg (g.map WaterSample.dissolved_oxygen_mg_l),
      avg_turbidity := mongoAvg (g.map WaterSample.turbidity_ntu) }

/-! ### Spec-side normalization contracts (for the refinement claims)

`cleanSpecClaim` transcribes the claimed output-normalization contract
(timestamps rendered at the top level and at one level of nesting,
explicitly including entries of list-valued fields such as `files`);
`cleanSpecAmended` transcribes the amended contract (only dict-valued
fields are descended into; list values pass through unchanged). Both
share the identifier-renaming step, which is not in dispute. -/

/-- Render a timestamp-typed value as its ISO-8601 string; leave any
other value unchanged. -/
def renderIso : Value → Value
  | Value.datetime d => Value.str (isoformat d)
  | v => v

/-- Spec wording of the renaming step: the store-assigned identifier
(when present and truthy) becomes the public string field `id` and is
removed from `_id`. -/
def specRenameId (doc : Doc) : Doc :=
  let idv := (assocGet doc "_id").getD Value.null
  if truthy idv
  then assocSet (assocPop doc "_id") "id" (Value.str (pyStr idv))
  else assocSet doc "id" Value.null

/-- Amended contract for one field value: timestamps at the top level
and one level inside dict-valued fields are rendered; lists and all
other values pass through unchanged. -/
def amendedRender : Value → Value
  | Value.dict kvs => Value.dict (kvs.map fun p => (p.1, renderIso p.2))
  | v => renderIso v

def cleanSpecAmended (doc : Doc) : Doc :=
  (specRenameId doc).map fun p => (p.1, amendedRender p.2)

/-- The claim's contract for an entry of a list-valued field: its
timestamps (directly or one level inside a dict entry such as a `files`
descriptor) are rendered too. -/
def claimRenderEntry : Value → Value
  | Value.dict kvs => Value.dict (kvs.map fun p => (p.1, renderIso p.2))
  | v => renderIso v

/-- The claim's contract for one field value: like the amended one but
also descending into list entries. -/
def claimRender : Value → Value
  | Value.dict kvs => Value.dict (kvs.map fun p => (p.1, renderIso p.2))
  | Value.list vs => Value.list (vs.map claimRenderEntry)
  | v => renderIso v

def cleanSpecClaim (doc : Doc) : Doc :=
  (specRenameId doc).map fun p => (p.1, claimRender p.2)

/-! ### Spec-side aggregation vocabulary -/

/-- The spec's per-field average: the arithmetic mean of only the
non-null values, and null (not zero, not an error) when every value in
the group is null for that field. -/
def specAvg (vals : List (Option ℚ)) : Option ℚ :=
  let present := vals.filterMap id
  if present = [] then none else some (present.sum / present.length)

/-- The group of stored samples sharing one scenario value. -/
def scenarioGroup (store : List WaterSample) (s : String) : List WaterSample :=
  store.filter fun ws => ws.scenario == s

/-! ### Concrete records used by witnesses and counterexamples -/

def dt0 : DT := ⟨2024, 1, 1, 0, 0, 0⟩

/-- A candidate that passes every declared constraint except that its
scenario tag is the empty string. -/
def candEmptyScenario : Candidate :=
  { scenario := some "", site_name := none, collected_at := some dt0,
    location := some (some 10, some 20), ph := some 7,
    dissolved_oxygen_mg_l := none, turbidity_ntu := none,
    metals_mg_l := none, notes := none, files := none }

/-- The `WaterSample` the empty-scenario candidate parses to. -/
def sampleEmptyScenario : WaterSample :=
  { scenario := "", site_name := none, collected_at := dt0,
    location := ⟨10, 20⟩, ph := some 7,
    dissolved_oxygen_mg_l := none, turbidity_ntu := none,
    metals_mg_l := none, notes := none, files := none }

/-- An otherwise valid candidate whose ph is 15, outside [0, 14]. -/
def candHighPh : Candidate := { candEmptyScenario with scenario := some "dry", ph := some 15 }

/-- An otherwise valid candidate missing its scenario tag. -/
def candNoScenario : Candidate := { candEmptyScenario with scenario := none }

/-- A candidate violating two constraints at once: ph above 14 and a
negative dissolved-oxygen reading. -/
def candTwoViolations : Candidate :=
  { candEmptyScenario with
      scenario := some "dry"
      ph := some 20
      dissolved_oxygen_mg_l := some (-1) }

/-- A store of 7 documents matching every scenario-less query. -/
def store7 : List Doc :=
  (List.range 7).map fun i => [("_id", Value.objectId (toString i))]

/-- A store of 201 identical documents, to exercise the default limit. -/
def store201 : List Doc := List.replicate 201 [("note", Value.null)]

/-- One stored record tagged with the scenario "dry". -/
def docDry : Doc := [("_id", Value.objectId "a1"), ("scenario", Value.str "dry")]

/-- A stored document carrying a timestamp at the top level, one inside a
dict-valued field, and one inside a `files` list entry. -/
def docNested : Doc :=
  [("_id", Value.objectId "f1"),
   ("collected_at", Value.datetime dt0),
   ("location", Value.dict [("lat", Value.num 10), ("lon", Value.num 20)]),
   ("files", Value.list [Value.dict [("uploaded_at", Value.datetime dt0)]])]

/-- Three validated samples in scenario "a" with ph 6, 8 and null. -/
def wsA6 : WaterSample :=
  { scenario := "a", site_name := none, collected_at := dt0,
    location := ⟨0, 0⟩, ph := some 6, dissolved_oxygen_mg_l := none,
    turbidity_ntu := none, metals_mg_l := none, notes := none, files := none }

def wsA8 : WaterSample := { wsA6 with ph := some 8 }

def wsANull : WaterSample := { wsA6 with ph := none }

def storeA : List WaterSample := [wsA6, wsA8, wsANull]

/-- The single summary the "a" store aggregates to. -/
def sumA : ScenarioSummary :=
  { scenario := "a", count := 3, avg_ph := some 7, avg_do := none,
    avg_turbidity := none }

/-!
## Theorems

Helper lemmas first: membership characterizations for each per-field
error list produced by validation.
-/

theorem mem_scenarioErrs {c : Candidate} {v : Violation} :
    v ∈ scenarioErrs c ↔ c.scenario = none ∧ v = (FieldId.scenario, Rule.missing) := by
  cases hs : c.scenario <;> simp [scenarioErrs, hs]

theorem mem_collectedAtErrs {c : Candidate} {v : Violation} :
    v ∈ collectedAtErrs c ↔
      c.collected_at = none ∧ v = (FieldId.collected_at, Rule.missing) := by
  cases hs : c.collected_at <;> simp [collectedAtErrs, hs]

theorem mem_phErrs {c : Candidate} {v : Violation} :
    v ∈ phErrs c ↔ ∃ q, c.ph = some q ∧
      ((q < 0 ∧ v = (FieldId.ph, Rule.ge)) ∨ (14 < q ∧ v = (FieldId.ph, Rule.le))) := by
  cases hs : c.ph with
  | none => simp [phErrs, hs]
  | some q => simp [phErrs, hs]

theorem mem_doErrs {c : Candidate} {v : Violation} :
    v ∈ doErrs c ↔ ∃ q, c.dissolved_oxygen_mg_l = some q ∧ q < 0 ∧
      v = (FieldId.dissolved_oxygen_mg_l, Rule.ge) := by
  cases hs : c.dissolved_oxygen_mg_l with
  | none => simp [doErrs, hs]
  | some q => simp [doErrs, hs]

theorem mem_turbidityErrs {c : Candidate} {v : Violation} :
    v ∈ turbidityErrs c ↔ ∃ q, c.turbidity_ntu = some q ∧ q < 0 ∧
      v = (FieldId.turbidity_ntu, Rule.ge) := by
  cases hs : c.turbidity_ntu with
  | none => simp [turbidityErrs, hs]
  | some q => simp [turbidityErrs, hs]

theorem mem_locationErrs_some {c : Candidate} {lv : Option ℚ × Option ℚ}
    (hs : c.location = some lv) {v : Violation} (h : v ∈ locationErrs c) :
    v.1 = FieldId.lat ∨ v.1 = FieldId.lon := by
  obtain ⟨a, b⟩ := lv
  simp [locationErrs, hs] at h
  rcases h with h | h
  · cases a with
    | none => simp_all
    | some q =>
      simp at h
      rcases h with ⟨_, rfl⟩ | ⟨_, rfl⟩ <;> simp
  · cases b with
    | none => simp_all
    | some q =>
      simp at h
      rcases h with ⟨_, rfl⟩ | ⟨_, rfl⟩ <;> simp

theorem mem_locationErrs_shape {c : Candidate} {v : Violation} (h : v ∈ locationErrs c) :
    v.1 = FieldId.location ∨ v.1 = FieldId.lat ∨ v.1 = FieldId.lon := by
  cases hs : c.location with
  | none => simp [locationErrs, hs] at h; simp [h]
  | some lv => rcases mem_locationErrs_some hs h with h2 | h2 <;> simp [h2]

theorem location_missing_mem {c : Candidate} :
    (FieldId.location, Rule.missing) ∈ locationErrs c ↔ c.location = none := by
  cases hs : c.location with
  | none => simp [locationErrs, hs]
  | some lv =>
    simp [hs]
    intro h
    rcases mem_locationErrs_some hs h with h2 | h2 <;> simp at h2

theorem mem_filesErrs_shape {c : Candidate} {v : Violation} (h : v ∈ filesErrs c) :
    ∃ i, v = (FieldId.filesFilename i, Rule.missing) := by
  cases hs : c.files with
  | none => simp [filesErrs, hs] at h
  | some fs =>
    simp [filesErrs, hs, List.mem_filterMap] at h
    obtain ⟨i, f, hmem, hm⟩ := h
    cases hf : f.filename with
    | none =>
      rw [hf] at hm
      simp at hm
      exact ⟨i, hm.symm⟩
    | some s => rw [hf] at hm; simp at hm

theorem mem_violations {c : Candidate} {v : Violation} :
    v ∈ violations c ↔ v ∈ scenarioErrs c ∨ v ∈ collectedAtErrs c ∨
      v ∈ locationErrs c ∨ v ∈ phErrs c ∨ v ∈ doErrs c ∨
      v ∈ turbidityErrs c ∨ v ∈ filesErrs c := by
  simp [violations, List.mem_append, or_assoc]

theorem validate_error_of_ne {c : Candidate} (h : violations c ≠ []) :
    validate c = Except.error (violations c) := by
  unfold validate
  cases toSample c <;> simp [h]

theorem create_sample_error_of_ne (store : List WaterSample) {c : Candidate}
    (h : violations c ≠ []) :
    create_sample store c = (store, Except.error (violations c)) := by
  unfold create_sample
  rw [validate_error_of_ne h]

theorem not_mem_locationErrs {c : Candidate} (f : FieldId) (r : Rule)
    (h1 : f ≠ FieldId.location) (h2 : f ≠ FieldId.lat) (h3 : f ≠ FieldId.lon) :
    (f, r) ∉ locationErrs c := by
  intro hmem
  rcases mem_locationErrs_shape hmem with h | h | h <;> simp_all

theorem not_mem_filesErrs {c : Candidate} (f : FieldId) (r : Rule)
    (h : ∀ i, f ≠ FieldId.filesFilename i) : (f, r) ∉ filesErrs c := by
  intro hmem
  obtain ⟨i, hi⟩ := mem_filesErrs_shape hmem
  exact h i (by simp at hi; exact hi.1)

/-- C1: for every candidate record whose ph value lies outside [0, 14],
Ingestion signals a ValidationError (naming ph) and the watersample
store is unchanged, so no new record is persisted. -/
theorem ingest_out_of_range_ph_rejected (store : List WaterSample)
    (c : Candidate) (q : ℚ) (hph : c.ph = some q) (hout : q < 0 ∨ 14 < q) :
    (create_sample store c).1 = store ∧
      ∃ errs, (create_sample store c).2 = Except.error errs ∧ errs ≠ [] ∧
        ∃ r, (FieldId.ph, r) ∈ errs := by
  have hmem : ∃ r, (FieldId.ph, r) ∈ violations c := by
    rcases hout with h | h
    · exact ⟨Rule.ge, mem_violations.mpr (Or.inr (Or.inr (Or.inr (Or.inl
        (mem_phErrs.mpr ⟨q, hph, Or.inl ⟨h, rfl⟩⟩)))))⟩
    · exact ⟨Rule.le, mem_violations.mpr (Or.inr (Or.inr (Or.inr (Or.inl
        (mem_phErrs.mpr ⟨q, hph, Or.inr ⟨h, rfl⟩⟩)))))⟩
  have hne : violations c ≠ [] := by
    obtain ⟨r, hr⟩ := hmem
    intro h0
    rw [h0] at hr
    simp at hr
  rw [create_sample_error_of_ne store hne]
  exact ⟨rfl, violations c, rfl, hne, hmem⟩

/-- Witness for C1 at a concrete candidate with ph 15 over the empty store. -/
theorem ingest_out_of_range_ph_rejected_witness :
    (create_sample [] candHighPh).1 = [] ∧
      ∃ errs, (create_sample [] candHighPh).2 = Except.error errs ∧ errs ≠ [] ∧
        ∃ r, (FieldId.ph, r) ∈ errs :=
  ingest_out_of_range_ph_rejected [] candHighPh 15 rfl (Or.inr (by norm_num))

/-- C7 counterexample: a candidate whose scenario is the empty string is
accepted by validation and persisted, so Ingestion does not signal a
ValidationError on it. -/
theorem empty_scenario_accepted :
    create_sample [] candEmptyScenario =
      ([sampleEmptyScenario], Except.ok ⟨"0", "created"⟩) := by rfl

/-- C7 (amended): a candidate record missing its scenario field fails
validation with a ValidationError naming scenario and nothing persisted;
but a scenario equal to the empty string is accepted (the schema does not
enforce non-emptiness). -/
theorem scenario_required_but_empty_string_allowed :
    (∀ (store : List WaterSample) (c : Candidate), c.scenario = none →
       (create_sample store c).1 = store ∧
         ∃ errs, (create_sample store c).2 = Except.error errs ∧
           (FieldId.scenario, Rule.missing) ∈ errs) ∧
    (create_sample [] candEmptyScenario).2 =
      Except.ok ⟨"0", "created"⟩ := by
  constructor
  · intro store c hs
    have hmem : (FieldId.scenario, Rule.missing) ∈ violations c :=
      mem_violations.mpr (Or.inl (mem_scenarioErrs.mpr ⟨hs, rfl⟩))
    have hne : violations c ≠ [] := by
      intro h0; rw [h0] at hmem; simp at hmem
    rw [create_sample_error_of_ne store hne]
    exact ⟨rfl, violations c, rfl, hmem⟩
  · rfl

/-- Witness for the amended C7 at a concrete candidate missing scenario. -/
theorem scenario_required_but_empty_string_allowed_witness :
    (create_sample [] candNoScenario).1 = [] ∧
      ∃ errs, (create_sample [] candNoScenario).2 = Except.error errs ∧
        (FieldId.scenario, Rule.missing) ∈ errs :=
  scenario_required_but_empty_string_allowed.1 [] candNoScenario rfl

/-- C8: validation reports every violated field constraint, not only the
first: each bound or required-field violation appears in the reported
list exactly when the candidate violates it, independently of the other
fields, and a failing ingestion reports that full list. -/
theorem validation_reports_every_violated_constraint
    (store : List WaterSample) (c : Candidate) :
    ((∃ q, c.ph = some q ∧ q < 0) ↔ (FieldId.ph, Rule.ge) ∈ violations c) ∧
    ((∃ q, c.ph = some q ∧ 14 < q) ↔ (FieldId.ph, Rule.le) ∈ violations c) ∧
    ((∃ q, c.dissolved_oxygen_mg_l = some q ∧ q < 0) ↔
      (FieldId.dissolved_oxygen_mg_l, Rule.ge) ∈ violations c) ∧
    ((∃ q, c.turbidity_ntu = some q ∧ q < 0) ↔
      (FieldId.turbidity_ntu, Rule.ge) ∈ violations c) ∧
    (c.scenario = none ↔ (FieldId.scenario, Rule.missing) ∈ violations c) ∧
    (c.collected_at = none ↔
      (FieldId.collected_at, Rule.missing) ∈ violations c) ∧
    (c.location = none ↔ (FieldId.location, Rule.missing) ∈ violations c) ∧
    (violations c ≠ [] →
      create_sample store c = (store, Except.error (violations c))) := by
  refine ⟨?_, ?_, ?_, ?_, ?_, ?_, ?_, create_sample_error_of_ne store⟩
  · rw [mem_violations]
    simp [mem_scenarioErrs, mem_collectedAtErrs, mem_phErrs, mem_doErrs,
      mem_turbidityErrs,
      not_mem_locationErrs FieldId.ph Rule.ge (by simp) (by simp) (by simp),
      not_mem_filesErrs FieldId.ph Rule.ge (fun i => by simp)]
  · rw [mem_violations]
    simp [mem_scenarioErrs, mem_collectedAtErrs, mem_phErrs, mem_doErrs,
      mem_turbidityErrs,
      not_mem_locationErrs FieldId.ph Rule.le (by simp) (by simp) (by simp),
      not_mem_filesErrs FieldId.ph Rule.le (fun i => by simp)]
  · rw [mem_violations]
    simp [mem_scenarioErrs, mem_collectedAtErrs, mem_phErrs, mem_doErrs,
      mem_turbidityErrs,
      not_mem_locationErrs FieldId.dissolved_oxygen_mg_l Rule.ge
        (by simp) (by simp) (by simp),
      not_mem_filesErrs FieldId.dissolved_oxygen_mg_l Rule.ge
        (fun i => by simp)]
  · rw [mem_violations]
    simp [mem_scenarioErrs, mem_collectedAtErrs, mem_phErrs, mem_doErrs,
      mem_turbidityErrs,
      not_mem_locationErrs FieldId.turbidity_ntu Rule.ge
        (by simp) (by simp) (by simp),
      not_mem_filesErrs FieldId.turbidity_ntu Rule.ge (fun i => by simp)]
  · rw [mem_violations]
    simp [mem_scenarioErrs, mem_collectedAtErrs, mem_phErrs, mem_doErrs,
      mem_turbidityErrs,
      not_mem_locationErrs FieldId.scenario Rule.missing
        (by simp) (by simp) (by simp),
      not_mem_filesErrs FieldId.scenario Rule.missing (fun i => by simp)]
  · rw [mem_violations]
    simp [mem_scenarioErrs, mem_collectedAtErrs, mem_phErrs, mem_doErrs,
      mem_turbidityErrs,
      not_mem_locationErrs FieldId.collected_at Rule.missing
        (by simp) (by simp) (by simp),
      not_mem_filesErrs FieldId.collected_at Rule.missing (fun i => by simp)]
  · rw [mem_violations]
    simp [mem_scenarioErrs, mem_collectedAtErrs, mem_phErrs, mem_doErrs,
      mem_turbidityErrs, location_missing_mem,
      not_mem_filesErrs FieldId.location Rule.missing (fun i => by simp)]

/-- Witness for C8 at a concrete candidate violating two constraints at
once (ph 20 and dissolved oxygen -1): both violations are reported. -/
theorem validation_reports_every_violated_constraint_witness :
    (FieldId.ph, Rule.le) ∈ violations candTwoViolations ∧
      (FieldId.dissolved_oxygen_mg_l, Rule.ge) ∈ violations candTwoViolations ∧
      create_sample [] candTwoViolations =
        ([], Except.error (violations candTwoViolations)) :=
  ⟨(validation_reports_every_violated_constraint [] candTwoViolations).2.1.mp
      ⟨20, rfl, by norm_num⟩,
   (validation_reports_every_violated_constraint []
      candTwoViolations).2.2.1.mp ⟨-1, rfl, by norm_num⟩,
   (validation_reports_every_violated_constraint []
      candTwoViolations).2.2.2.2.2.2.2 (by decide)⟩

theorem cluster_labels_all_zero {store : List Doc} {scenario : Option String}
    {k : Int} (hk : k ≤ 0) :
    ∀ p ∈ (cluster_trigger store scenario k).labels, p.2 = 0 := by
  intro p hp
  simp [cluster_trigger, List.mem_map] at hp
  obtain ⟨i, id, hmem, heq⟩ := hp
  have hmax : max 1 k = 1 := max_eq_left (le_trans hk zero_le_one)
  rw [← heq]
  simp [hmax]

/-- C2: the Clustering Stub labels the i-th retrieved record (0-based, in
retrieval order) with i mod k when k ≥ 1, and treats k ≤ 0 as 1 so that
every label is 0; in particular with k = 3 and 7 matching records the
labels in retrieval order are 0,1,2,0,1,2,0. -/
theorem cluster_labels_round_robin (store : List Doc)
    (scenario : Option String) (k : Int) :
    (∀ i (h : i < (cluster_trigger store scenario k).labels.length),
        1 ≤ k →
        ((cluster_trigger store scenario k).labels.get ⟨i, h⟩).2 = (i : Int) % k) ∧
    (k ≤ 0 → ∀ p ∈ (cluster_trigger store scenario k).labels, p.2 = 0) ∧
    (cluster_trigger store7 none 3).labels.map Prod.snd =
      [0, 1, 2, 0, 1, 2, 0] := by
  refine ⟨?_, fun hk => cluster_labels_all_zero hk, by rfl⟩
  intro i h hk
  simp [cluster_trigger, List.get_eq_getElem, List.getElem_map,
    List.getElem_enum, max_eq_right hk]

/-- Witness for C2: the record at index 4 of a 7-record retrieval with
k = 3 is labeled 4 mod 3. -/
theorem cluster_labels_round_robin_witness :
    ((cluster_trigger store7 none 3).labels.get ⟨4, by decide⟩).2 = (4 : Int) % 3 :=
  (cluster_labels_round_robin store7 none 3).1 4 (by decide) (by norm_num)

/-- C10: the Clustering Stub's response reports the input k unchanged,
including non-positive k; the defensive floor to 1 only affects the
labels, which are then all 0. -/
theorem cluster_reports_input_k (store : List Doc)
    (scenario : Option String) (k : Int) :
    (cluster_trigger store scenario k).k = k ∧
      (k ≤ 0 → ∀ p ∈ (cluster_trigger store scenario k).labels, p.2 = 0) :=
  ⟨rfl, fun hk => cluster_labels_all_zero hk⟩

/-- Witness for C10 at k = -2: the response still carries k = -2 while
every label is 0. -/
theorem cluster_reports_input_k_witness :
    (cluster_trigger store7 none (-2)).k = -2 ∧
      ∀ p ∈ (cluster_trigger store7 none (-2)).labels, p.2 = 0 :=
  ⟨(cluster_reports_input_k store7 none (-2)).1,
   (cluster_reports_input_k store7 none (-2)).2 (by norm_num)⟩

/-- C9: Query is a deterministic pure function of the store's record
sequence and its arguments, so repeated calls with identical arguments
against an unchanged store return identical items in order and content. -/
theorem list_samples_deterministic (s1 s2 : List Doc)
    (scenario : Option String) (limit : Option Int) (h : s1 = s2) :
    list_samples s1 scenario limit = list_samples s2 scenario limit := by
  rw [h]

/-- Witness for C9 on a concrete store and arguments. -/
theorem list_samples_deterministic_witness :
    list_samples store7 (some "dry") defaultLimit =
      list_samples store7 (some "dry") defaultLimit :=
  list_samples_deterministic store7 store7 (some "dry") defaultLimit rfl

/-- C6 counterexample: with the limit argument omitted the endpoint binds
its default 200, so against a store of 201 matching records the Query
returns 200 items, not every matching record. -/
theorem default_limit_truncates :
    store201.length = 201 ∧ (list_samples store201 none defaultLimit).2 = 200 := by
  exact ⟨rfl, rfl⟩

/-- C6 (amended): when the caller omits limit the documented default 200
applies and the result is truncated to at most 200 records; an unlimited
result requires explicitly passing no limit, which the clustering stub
does internally for its retrieval. -/
theorem omitted_limit_binds_default_200 (store : List Doc)
    (scenario : Option String) (k : Int) :
    (list_samples store scenario defaultLimit).1.length =
      min 200 (store.filter (matchesFilter (scenarioFilter scenario))).length ∧
    (list_samples store scenario none).1.length =
      (store.filter (matchesFilter (scenarioFilter scenario))).length ∧
    (cluster_trigger store scenario k).labels.length =
      (store.filter (matchesFilter (scenarioFilter scenario))).length := by
  refine ⟨?_, by simp [list_samples, get_documents], ?_⟩
  · simp [list_samples, get_documents, defaultLimit, List.length_take]
  · simp [cluster_trigger, get_documents, List.enum_length]

/-- C4 counterexample: the Query called with the empty-string scenario
returns a record whose scenario is "dry", so a supplied empty scenario
does not restrict results to records with an equal scenario value. -/
theorem empty_scenario_does_not_restrict :
    assocGet ((list_samples [docDry] (some "") defaultLimit).1.headD [])
        "scenario" = some (Value.str "dry") ∧ ("dry" : String) ≠ "" :=
  ⟨rfl, by decide⟩

/-- C4 (amended): the store filter is built exactly when the scenario
parameter is supplied and non-empty (Python truthiness): a missing or
empty-string scenario leaves the filter empty, meaning no restriction,
while a non-empty scenario restricts the retrieved records to those
whose scenario equals that value. -/
theorem scenario_filter_built_iff_truthy (store : List Doc) (s : String)
    (limit : Option Int) :
    (list_samples store (some "") limit = list_samples store none limit) ∧
    (s ≠ "" → scenarioFilter (some s) = [("scenario", Value.str s)]) ∧
    (s ≠ "" → ∀ d ∈ get_documents store (scenarioFilter (some s)) limit,
        assocGet d "scenario" = some (Value.str s)) := by
  refine ⟨rfl, fun hs => by simp [scenarioFilter, hs], fun hs d hd => ?_⟩
  have hsub : d ∈ store.filter (matchesFilter (scenarioFilter (some s))) := by
    unfold get_documents at hd
    cases limit with
    | none => exact hd
    | some n => exact List.take_subset _ _ hd
  have hm : matchesFilter (scenarioFilter (some s)) d = true :=
    List.of_mem_filter hsub
  simp [matchesFilter, scenarioFilter, hs, beq_iff_eq] at hm
  exact hm

/-- Witness for the amended C4: the dry-tagged record retrieved under the
filter for scenario "dry" indeed carries that scenario value. -/
theorem scenario_filter_built_iff_truthy_witness :
    assocGet docDry "scenario" = some (Value.str "dry") :=
  (scenario_filter_built_iff_truthy [docDry] "dry" defaultLimit).2.2
    (by decide) docDry
    (by simp [get_documents, scenarioFilter, matchesFilter, assocGet,
          defaultLimit, docDry, beqValue])

theorem isoDict_eq_renderIso (kvs : List (String × Value)) :
    isoDict kvs = kvs.map fun p => (p.1, renderIso p.2) := by
  induction kvs with
  | nil => rfl
  | cons p ps ih => cases hp : p.2 <;> simp_all [isoDict, renderIso]

theorem convertTop_eq_amendedRender (v : Value) :
    convertTop v = amendedRender v := by
  cases v <;> simp [convertTop, amendedRender, renderIso, isoDict_eq_renderIso]

/-- C5 counterexample: on a stored record with a timestamp inside a
`files` list entry, `clean` leaves the raw timestamp in place while the
claimed contract renders it as an ISO-8601 string, so the claim fails. -/
theorem clean_misses_list_nested_timestamps :
    assocGet (clean docNested) "files" =
        some (Value.list [Value.dict [("uploaded_at", Value.datetime dt0)]]) ∧
      assocGet (cleanSpecClaim docNested) "files" =
        some (Value.list [Value.dict
          [("uploaded_at", Value.str (isoformat dt0))]]) ∧
      Value.datetime dt0 ≠ Value.str (isoformat dt0) :=
  ⟨rfl, rfl, fun h => Value.noConfusion h⟩

/-- C5 (amended): every returned record's truthy store identifier is
renamed to the public string `id` and removed from `_id`, every
timestamp at the top level or one level inside a dict-valued field is
rendered as an ISO-8601 string, and all other values, list-valued fields
(such as `files`) included, pass through unchanged: `clean` coincides
with the amended normalization contract on every document. -/
theorem clean_eq_amended_contract (doc : Doc) :
    clean doc = cleanSpecAmended doc := by
  unfold clean cleanSpecAmended specRenameId
  simp only [convertTop_eq_amendedRender]

/-- All-null inputs make the spec average null. -/
theorem specAvg_all_none {vals : List (Option ℚ)}
    (h : ∀ v ∈ vals, v = none) : specAvg vals = none := by
  have : vals.filterMap id = [] := List.filterMap_eq_nil_iff.mpr h
  simp [specAvg, this]

theorem mongoAvg_eq_specAvg (vals : List (Option ℚ)) :
    mongoAvg vals = specAvg vals := by
  simp [mongoAvg, specAvg, List.isEmpty_iff]

/-- C3: every scenario-group summary counts all records of the group and
reports each average as the arithmetic mean of only the non-null values
of that field within the group, null (not zero, not an error) when every
member is null for the field; every scenario present in the store gets a
summary; and concretely ph values 6, 8 and null in scenario "a" give
count 3 and avg_ph 7 with avg_do null. -/
theorem summaries_average_only_non_null (store : List WaterSample) :
    (∀ sum ∈ get_summaries store,
       sum.count = (scenarioGroup store sum.scenario).length ∧
       sum.avg_ph =
         specAvg ((scenarioGroup store sum.scenario).map WaterSample.ph) ∧
       sum.avg_do =
         specAvg ((scenarioGroup store sum.scenario).map
           WaterSample.dissolved_oxygen_mg_l) ∧
       sum.avg_turbidity =
         specAvg ((scenarioGroup store sum.scenario).map
           WaterSample.turbidity_ntu) ∧
       ((∀ ws ∈ scenarioGroup store sum.scenario,
           ws.dissolved_oxygen_mg_l = none) → sum.avg_do = none)) ∧
    (∀ s, (∃ ws ∈ store, ws.scenario = s) →
       ∃ sum ∈ get_summaries store, sum.scenario = s) ∧
    get_summaries storeA = [sumA] := by
  refine ⟨?_, ?_, by
    norm_num [get_summaries, storeA, wsA6, wsA8, wsANull, sumA, mongoAvg,
      List.dedup_cons_of_mem, List.dedup_cons_of_not_mem,
      List.filterMap_cons, List.sum_cons]
    all_goals intro h
    all_goals simp at h⟩
  · intro sum hsum
    simp only [get_summaries, List.mem_map] at hsum
    obtain ⟨s, hs, rfl⟩ := hsum
    refine ⟨rfl, ?_, ?_, ?_, ?_⟩
    · exact (mongoAvg_eq_specAvg _).trans rfl
    · exact (mongoAvg_eq_specAvg _).trans rfl
    · exact (mongoAvg_eq_specAvg _).trans rfl
    · intro hall
      exact (mongoAvg_eq_specAvg _).trans
        (specAvg_all_none (by
          intro v hv
          simp only [scenarioGroup, List.mem_map] at hv
          obtain ⟨ws, hws, rfl⟩ := hv
          exact hall ws hws))
  · intro s hex
    obtain ⟨ws, hws, hscen⟩ := hex
    have hmem : s ∈ (store.map WaterSample.scenario).dedup :=
      List.mem_dedup.mpr (List.mem_map.mpr ⟨ws, hws, hscen⟩)
    exact ⟨_, List.mem_map.mpr ⟨s, hmem, rfl⟩, rfl⟩

/-- Witness for C3: the "a" summary of the concrete store reports avg_ph
as the mean of its non-null ph values. -/
theorem summaries_average_only_non_null_witness :
    sumA.avg_ph =
      specAvg ((scenarioGroup storeA sumA.scenario).map WaterSample.ph) :=
  (((summaries_average_only_non_null storeA).1 sumA (by
    norm_num [get_summaries, storeA, wsA6, wsA8, wsANull, sumA, mongoAvg,
      List.dedup_cons_of_mem, List.dedup_cons_of_not_mem,
      List.filterMap_cons, List.sum_cons]
    all_goals intro h
    all_goals simp at h)).2.1)

end WaterQuality
